import Mathlib

/-!
Verification development for the weekly-notes helper (`note.py`).

Python strings are modelled as `List Char`, `datetime` dates as `Date`
records (year, month, day) together with their proleptic-Gregorian
ordinal (`ymd2ord`, the value of Python's `date.toordinal`, with
ordinal 1 = 0001-01-01, a Monday).  Filesystem reads are modelled by
passing the relevant file's content (`Option (List Char)`, `none` when
the file does not exist) as an explicit argument, and the writes the
program performs are returned as an explicit list of (path, content)
pairs.  Fallible operations return `Option` or a dedicated result type
whose constructors mirror the Python control flow (normal return,
raised exception, implicit `None` return).
-/

/-- A calendar date, as carried by Python's `datetime` (time of day is
irrelevant to this program and omitted). -/
structure Date where
  year : Nat
  month : Nat
  day : Nat
deriving DecidableEq, Repr

/-- `str s` is the `List Char` view of a string literal. -/
def str (s : String) : List Char := s.data

/-- Gregorian leap-year rule, as in Python's `calendar.isleap` /
`datetime`. -/
def isLeapYear (y : Nat) : Bool := (y % 4 == 0 && y % 100 != 0) || y % 400 == 0

/-- Length of a month, as in `datetime` (`_days_in_month`). -/
def daysInMonth (y m : Nat) : Nat :=
  if m = 2 then (if isLeapYear y then 29 else 28)
  else if m = 4 ∨ m = 6 ∨ m = 9 ∨ m = 11 then 30
  else 31

/-- Days in year `y` before month `m` (`_days_before_month`). -/
def daysBeforeMonth (y m : Nat) : Nat :=
  ((List.range (m - 1)).map (fun i => daysInMonth y (i + 1))).sum

/-- Days before January 1st of year `y` (`_days_before_year`). -/
def daysBeforeYear (y : Nat) : Nat :=
  (y - 1) * 365 + (y - 1) / 4 - (y - 1) / 100 + (y - 1) / 400

/-- Python's `date.toordinal` (`_ymd2ord`): proleptic Gregorian
ordinal, with 0001-01-01 having ordinal 1. -/
def ymd2ord (d : Date) : Nat :=
  daysBeforeYear d.year + daysBeforeMonth d.year d.month + d.day

/-- Python's `date.fromordinal` (`_ord2ymd`), using CPython's
400/100/4/1-year division scheme followed by a month scan. -/
def ord2ymd (n : Nat) : Date :=
  let n0 := n - 1
  let n400 := n0 / 146097
  let r400 := n0 % 146097
  let n100 := r400 / 36524
  let r100 := r400 % 36524
  let n4 := r100 / 1461
  let r4 := r100 % 1461
  let n1 := r4 / 365
  let r1 := r4 % 365
  let year := n400 * 400 + n100 * 100 + n4 * 4 + n1 + 1
  if n1 = 4 ∨ n100 = 4 then ⟨year - 1, 12, 31⟩
  else
    let m := ((List.range 12).filter (fun i => daysBeforeMonth year (i + 1) ≤ r1)).length
    ⟨year, m, r1 - daysBeforeMonth year m + 1⟩

/-- Python's `date.isoweekday` expressed on ordinals:
1 = Monday .. 7 = Sunday (`date.weekday` is `(ordinal + 6) % 7`). -/
def isoweekdayOrd (n : Nat) : Nat := (n + 6) % 7 + 1

/-- CPython's `_isoweek1monday`: the ordinal of the Monday starting
ISO week 1 of `year`. -/
def isoweek1monday (year : Nat) : Int :=
  let firstday : Int := ymd2ord ⟨year, 1, 1⟩
  let firstweekday := (firstday + 6).fmod 7
  let week1monday := firstday - firstweekday
  if 3 < firstweekday then week1monday + 7 else week1monday

/-- CPython's `date.isocalendar`, returning (ISO year, ISO week,
ISO weekday).  Python's `divmod` on a positive divisor is floor
division, i.e. `Int.fdiv`/`Int.fmod`. -/
def isocalendar (d : Date) : Nat × Nat × Nat :=
  let w1m := isoweek1monday d.year
  let today : Int := ymd2ord d
  let week := (today - w1m).fdiv 7
  let day := (today - w1m).fmod 7
  if week < 0 then
    let w1m' := isoweek1monday (d.year - 1)
    let week' := (today - w1m').fdiv 7
    let day' := (today - w1m').fmod 7
    (d.year - 1, (week' + 1).toNat, (day' + 1).toNat)
  else if 52 ≤ week ∧ isoweek1monday (d.year + 1) ≤ today then
    (d.year + 1, 1, (day + 1).toNat)
  else
    (d.year, (week + 1).toNat, (day + 1).toNat)

/-!  ## Date-token parsing (`datetime.strptime` for the six `FMTS`)

CPython's `_strptime` compiles each format directive to a regex
fragment: `%Y` is `\d\d\d\d` (exactly four digits), `%y` is `\d\d`
(exactly two, mapped 0-68 to 2000-2068 and 69-99 to 1969-1999),
`%m` is `1[0-2]|0[1-9]|[1-9]` and `%d` is `3[01]|[12]\d|0[1-9]|[1-9]`.
The whole string must be consumed, then the parsed fields must form a
valid `datetime` (else `ValueError`).  The alternation order (with
regex backtracking) is modelled by candidate lists tried in order. -/

/-- Numeric value of an ASCII digit, if `c` is one. -/
def digitVal (c : Char) : Option Nat :=
  if '0' ≤ c ∧ c ≤ '9' then some (c.toNat - 48) else none

/-- Regex-alternation candidates for `%m` (`1[0-2]|0[1-9]|[1-9]`),
each paired with the unconsumed rest of the input. -/
def mCands (s : List Char) : List (Nat × List Char) :=
  let two :=
    match s with
    | a :: b :: r =>
      match digitVal a, digitVal b with
      | some x, some y =>
        if x = 1 ∧ y ≤ 2 then [(10 + y, r)]
        else if x = 0 ∧ 1 ≤ y then [(y, r)]
        else []
      | _, _ => []
    | _ => []
  let one :=
    match s with
    | a :: r =>
      match digitVal a with
      | some x => if 1 ≤ x then [(x, r)] else []
      | none => []
    | [] => []
  two ++ one

/-- Regex-alternation candidates for `%d` (`3[01]|[12]\d|0[1-9]|[1-9]`). -/
def dCands (s : List Char) : List (Nat × List Char) :=
  let two :=
    match s with
    | a :: b :: r =>
      match digitVal a, digitVal b with
      | some x, some y =>
        if x = 3 ∧ y ≤ 1 then [(30 + y, r)]
        else if x = 1 ∨ x = 2 then [(10 * x + y, r)]
        else if x = 0 ∧ 1 ≤ y then [(y, r)]
        else []
      | _, _ => []
    | _ => []
  let one :=
    match s with
    | a :: r =>
      match digitVal a with
      | some x => if 1 ≤ x then [(x, r)] else []
      | none => []
    | [] => []
  two ++ one

/-- Candidates for `%Y`: exactly four digits. -/
def yCands4 (s : List Char) : List (Nat × List Char) :=
  match s with
  | a :: b :: c :: d :: r =>
    match digitVal a, digitVal b, digitVal c, digitVal d with
    | some w, some x, some y, some z => [(1000 * w + 100 * x + 10 * y + z, r)]
    | _, _, _, _ => []
  | _ => []

/-- Candidates for `%y`: exactly two digits, with CPython's century
mapping (0-68 to 2000+, 69-99 to 1900+). -/
def yCands2 (s : List Char) : List (Nat × List Char) :=
  match s with
  | a :: b :: r =>
    match digitVal a, digitVal b with
    | some x, some y =>
      let v := 10 * x + y
      [(if v ≤ 68 then 2000 + v else 1900 + v, r)]
    | _, _ => []
  | _ => []

/-- First non-`none` result of `f` over a list, in order (regex
backtracking over alternation candidates). -/
def firstSome {α β : Type} : List α → (α → Option β) → Option β
  | [], _ => none
  | a :: t, f => match f a with
    | some b => some b
    | none => firstSome t f

/-- Full-match parse of `field1 sep field2 sep field3`, with
backtracking over each field's candidates; the entire input must be
consumed (CPython checks `len(data_string) == found.end()`). -/
def tryParse3 (p1 p2 p3 : List Char → List (Nat × List Char)) (sep : Char)
    (s : List Char) : Option (Nat × Nat × Nat) :=
  firstSome (p1 s) fun v1 =>
    match v1.2 with
    | c :: r1 =>
      if c = sep then
        firstSome (p2 r1) fun v2 =>
          match v2.2 with
          | c2 :: r2 =>
            if c2 = sep then
              firstSome (p3 r2) fun v3 =>
                if v3.2 = [] then some (v1.1, v2.1, v3.1) else none
            else none
          | [] => none
      else none
    | [] => none

/-- `datetime(year, month, day)` construction: raises `ValueError`
(here `none`) unless the fields form a valid date. -/
def mkValidDate (y m d : Nat) : Option Date :=
  if 1 ≤ y ∧ y ≤ 9999 ∧ 1 ≤ m ∧ m ≤ 12 ∧ 1 ≤ d ∧ d ≤ daysInMonth y m
  then some ⟨y, m, d⟩ else none

/-- `datetime.strptime(s, "%Y<sep>%m<sep>%d")`. -/
def strpY (sep : Char) (s : List Char) : Option Date :=
  match tryParse3 yCands4 mCands dCands sep s with
  | some (y, m, d) => mkValidDate y m d
  | none => none

/-- `datetime.strptime(s, "%d<sep>%m<sep>%Y")`. -/
def strpD (sep : Char) (s : List Char) : Option Date :=
  match tryParse3 dCands mCands yCands4 sep s with
  | some (d, m, y) => mkValidDate y m d
  | none => none

/-- `datetime.strptime(s, "%y<sep>%m<sep>%d")`. -/
def strpY2 (sep : Char) (s : List Char) : Option Date :=
  match tryParse3 yCands2 mCands dCands sep s with
  | some (y, m, d) => mkValidDate y m d
  | none => none

/-- The `FMTS` list of `note.py`, in order. -/
def FMTS : List (List Char → Option Date) :=
  [strpY '-', strpY '/', strpD '-', strpD '/', strpY2 '-', strpY2 '/']

/-- The `for fmt in FMTS: try ... break / except ValueError: continue`
loop: first format that parses wins. -/
def tryFormats (s : List Char) : Option Date :=
  firstSome FMTS (fun f => f s)

/-! ## Date resolution (`get_year_and_week_from_date`, lines 58-77)

The Python function receives the raw token (`args.date`, possibly
`None`) and uses `datetime.now()` for the relative cases; here the
current date is an explicit `today` parameter.  Two behaviours of the
source are modelled exactly:
  * `date in ("last")` is a *substring* test against the string
    `"last"` (the parentheses do not make a tuple);
  * when no format parses, `date` is still the original (non-empty,
    hence truthy) string, so the `if not date` guard does not fire and
    `date.year` raises `AttributeError`. -/

/-- Index of the first occurrence of `n` in a list (Python `in` /
`re.search` scan position), `none` when absent. -/
def firstIdx (n : List Char) : List Char → Option Nat
  | [] => if n = [] then some 0 else none
  | c :: t => if n.isPrefixOf (c :: t) then some 0 else (firstIdx n t).map (· + 1)

/-- Python's `needle in hay` on strings: substring containment. -/
def pyIn (n hay : List Char) : Bool := (firstIdx n hay).isSome

/-- Outcome of the token-to-date phase of
`get_year_and_week_from_date` (lines 59-69): either a `datetime`, or
the original string left unparsed by every format. -/
inductive Resolved where
  | date (d : Date)
  | unparsed (s : List Char)
deriving DecidableEq, Repr

/-- Lines 59-69 of `note.py`: empty/`this`/`today` use the current
date, a token contained in `"last"` uses the current date minus
`timedelta(weeks=1)`, otherwise the formats are tried in order. -/
def resolveDate (today : Date) (token : Option (List Char)) : Resolved :=
  match token with
  | none => .date today
  | some s =>
    if s = [] ∨ s = str "this" ∨ s = str "today" then .date today
    else if pyIn s (str "last") then .date (ord2ymd (ymd2ord today - 7))
    else
      match tryFormats s with
      | some d => .date d
      | none => .unparsed s

/-- Result of `get_year_and_week_from_date`: a `(year, week)` pair, the
`print`-and-`return 1` branch (line 71-73), or an uncaught
`AttributeError` from `date.year` on a string (line 75). -/
inductive YW where
  | ok (year week : Nat)
  | parseErrorReturn1 (s : List Char)
  | attrError (s : List Char)
deriving DecidableEq, Repr

/-- Lines 75-77: `year` is the *calendar* year of the resolved date,
`week` is `date.isocalendar()[1]`. -/
def year_week_of_date (d : Date) : Nat × Nat := (d.year, (isocalendar d).2.1)

/-- `get_year_and_week_from_date` (lines 58-77).  `if not date` is
`True` only for an empty string (a `datetime` and a non-empty string
are both truthy); for a truthy unparsed string execution falls through
to `date.year`, which raises `AttributeError`. -/
def get_year_and_week_from_date (today : Date) (token : Option (List Char)) : YW :=
  match resolveDate today token with
  | .date d => .ok (year_week_of_date d).1 (year_week_of_date d).2
  | .unparsed s => if s = [] then .parseErrorReturn1 s else .attrError s

/-! ## ISO week to date range (`iso_week_to_date_range`, lines 41-55) -/

/-- `iso_week_to_date_range(year, week, days)`, on ordinals:
`jan4 = datetime(year, 1, 4)`, rewind to that week's Monday, advance
`week - 1` weeks; the end is `days - 1` days later. -/
def iso_week_to_date_range (year week days : Nat) : Nat × Nat :=
  let jan4 := ymd2ord ⟨year, 1, 4⟩
  let start_of_year_week := jan4 - (isoweekdayOrd jan4 - 1)
  let start_date := start_of_year_week + 7 * (week - 1)
  let end_date := start_date + (days - 1)
  (start_date, end_date)

/-! ## Filename derivation (`build_filename`, lines 80-89)

`os.path.expandvars` is the identity on a variable-free base
directory, which is how the model treats `base_dir`; `os.path.join`
with a relative second component inserts a single `/`. -/

/-- `n` rendered in decimal. -/
def natChars (n : Nat) : List Char := (Nat.repr n).data

/-- Zero-padded two-digit field (`strftime` `%m` / `%d`). -/
def pad2 (n : Nat) : List Char := if n < 10 then '0' :: natChars n else natChars n

/-- Zero-padded four-digit field (`strftime` `%Y`). -/
def pad4 (n : Nat) : List Char :=
  if n < 10 then str "000" ++ natChars n
  else if n < 100 then str "00" ++ natChars n
  else if n < 1000 then str "0" ++ natChars n
  else natChars n

/-- `start_date.strftime("%m-%d")` for an ordinal. -/
def fmtMonthDay (ord : Nat) : List Char :=
  pad2 (ord2ymd ord).month ++ str "-" ++ pad2 (ord2ymd ord).day

/-- `d.strftime("%Y/%m/%d")` (the `DATE_FMT` of `note.py`). -/
def fmtDateSlash (ord : Nat) : List Char :=
  pad4 (ord2ymd ord).year ++ str "/" ++ pad2 (ord2ymd ord).month ++ str "/" ++ pad2 (ord2ymd ord).day

/-- `build_filename(date, base_dir)` (lines 80-89); `none` when
`get_year_and_week_from_date` raised.  The path is
`base_dir/<year>/<MM-DD of the work-week start>.md`. -/
def build_filename (today : Date) (token : Option (List Char)) (base_dir : List Char) :
    Option (List Char) :=
  match get_year_and_week_from_date today token with
  | .ok y w =>
    some (base_dir ++ str "/" ++ natChars y ++ str "/" ++
      fmtMonthDay (iso_week_to_date_range y w 5).1 ++ str ".md")
  | _ => none

/-! ## Section extraction (`cat_section`, lines 92-106)

The local regex is `(?<=## {section}\n)(.*?)(?=\n##|\Z)` with
`re.DOTALL`.  `re.search` returns a match at the leftmost position
whose last eight characters are `## {section}\n` (the lookbehind is
not anchored to a line start); the non-greedy `(.*?)` then extends to
the nearest following `\n##`, or to the end of the content, and
`.group(0).strip()` trims Python whitespace from both ends. -/

/-- The lookbehind text `## {section}\n`. -/
def headingOf (sec : List Char) : List Char := str "## " ++ sec ++ ['\n']

/-- Offset of the nearest `\n##` in `region` (the lookahead
`(?=\n##|\Z)`); the region's length when there is none. -/
def findBoundary (region : List Char) : Nat :=
  match firstIdx (str "\n##") region with
  | some j => j
  | none => region.length

/-- Python's `str.isspace` characters that `strip()` removes (ASCII). -/
def isPySpace (c : Char) : Bool :=
  c = ' ' ∨ c = '\t' ∨ c = '\n' ∨ c = '\r' ∨ c = '\x0b' ∨ c = '\x0c'

/-- Python `str.strip()`. -/
def pyStrip (s : List Char) : List Char :=
  (((s.dropWhile isPySpace).reverse).dropWhile isPySpace).reverse

/-- `re.search(SECTION_REGEX, content, re.DOTALL)` followed by
`.group(0).strip()`: `none` when the pattern does not match. -/
def extractSection (sec content : List Char) : Option (List Char) :=
  match firstIdx (headingOf sec) content with
  | none => none
  | some i =>
    let region := content.drop (i + (headingOf sec).length)
    some (pyStrip (region.take (findBoundary region)))

/-- What `cat_section` produces: a returned string, a raised
`FileNotFoundError` with its message, or Python's implicit `None`
return (file present and non-empty but the regex found nothing). -/
inductive CatResult where
  | found (s : List Char)
  | errNotFound (msg : List Char)
  | retNone
deriving DecidableEq, Repr

/-- The `FileNotFoundError` message of lines 103-106: the date token
is interpolated when truthy. -/
def notFoundMsg (dateToken : Option (List Char)) : List Char :=
  match dateToken with
  | some s =>
    if s = [] then str "No notes found for this week"
    else str "No notes found for date '" ++ s ++ str "'"
  | none => str "No notes found for this week"

/-- `cat_section(section, date, base_dir)` (lines 92-106).  The
content of the file at the path `build_filename` derives is passed
explicitly (`none` when the file does not exist); the function never
touches any other file and performs no writes. -/
def cat_section (sec : List Char) (dateToken : Option (List Char))
    (file : Option (List Char)) : CatResult :=
  match file with
  | some content =>
    if 0 < content.length then
      match extractSection sec content with
      | some out => .found out
      | none => .retNone
    else .errNotFound (notFoundMsg dateToken)
  | none => .errNotFound (notFoundMsg dateToken)

/-- What the `--todo`/`--blockers` branch of `main` (lines 144-152)
prints: the section on success, the exception's message on
`FileNotFoundError`, and the string `"None"` when `cat_section`
returned Python `None`. -/
def cliSectionOutput (r : CatResult) : List Char :=
  match r with
  | .found s => s
  | .errNotFound msg => msg
  | .retNone => str "None"

/-! ## Note creation and carry-forward (`main`, lines 154-188) -/

/-- `f"{last_todo}\n" if last_todo else ""`: the TODO slot of the
template.  `last_todo` is `None` when `cat_section` raised or
returned `None`, and falsy when it returned the empty string. -/
def carryTodo (r : CatResult) : List Char :=
  match r with
  | .found s => if s = [] then [] else s ++ ['\n']
  | _ => []

/-- `f"{last_blockers}" if last_blockers else ""`: the Blockers slot
(no trailing newline is added here). -/
def carryBlockers (r : CatResult) : List Char :=
  match r with
  | .found s => if s = [] then [] else s
  | _ => []

/-- `NOTE_TEMPLATE.format(...)` (lines 21-36): the literal template
with the five slots substituted. -/
def NOTE_TEMPLATE_render (year week : Nat) (ws we todo blockers : List Char) : List Char :=
  str "# " ++ natChars year ++ str " W" ++ natChars week ++ str " (" ++ ws ++
    str " - " ++ we ++ str ")\n\n\n## Done\n\n\n## TODO\n\n" ++ todo ++
    str "\n\n## Blockers\n\n" ++ blockers ++ str "\n\n"

/-- Everything of the rendered template before the TODO slot. -/
def templateHead (year week : Nat) (ws we : List Char) : List Char :=
  str "# " ++ natChars year ++ str " W" ++ natChars week ++ str " (" ++ ws ++
    str " - " ++ we ++ str ")\n\n\n## Done\n\n\n## TODO\n\n"

/-- The initial text `main` seeds a new note with (lines 163-186):
the template over the resolved week's work-week range, with last
week's TODO and Blockers sections (each fetched by its own
`try`/`except cat_section` call on last week's file) carried forward.
`none` when date resolution raised before the text was built. -/
def newNoteText (today : Date) (token : Option (List Char))
    (lastWeekFile : Option (List Char)) : Option (List Char) :=
  match get_year_and_week_from_date today token with
  | .ok y w =>
    let r := iso_week_to_date_range y w 5
    let lastTodo := cat_section (str "TODO") (some (str "last")) lastWeekFile
    let lastBlockers := cat_section (str "Blockers") (some (str "last")) lastWeekFile
    some (NOTE_TEMPLATE_render y w (fmtDateSlash r.1) (fmtDateSlash r.2)
      (carryTodo lastTodo) (carryBlockers lastBlockers))
  | _ => none

/-- A section of the note a fresh invocation would create. -/
def newNoteSection (sec : List Char) (today : Date) (token : Option (List Char))
    (lastWeekFile : Option (List Char)) : Option (List Char) :=
  (newNoteText today token lastWeekFile).bind (extractSection sec)

/-- The file writes the no-flag branch of `main` (lines 154-188)
performs, as (path, initial content) pairs: nothing when the target
file exists non-empty (it is only opened in the editor), the rendered
template at the target path otherwise.  `targetContent` is the
current content of the target file, `lastWeekFile` of last week's
file; the carry-forward reads produce no write. -/
def mainNoFlagWrites (today : Date) (token : Option (List Char)) (base_dir : List Char)
    (targetContent lastWeekFile : Option (List Char)) : List (List Char × List Char) :=
  match build_filename today token base_dir with
  | none => []
  | some path =>
    match targetContent with
    | some c =>
      if 0 < c.length then []
      else
        match newNoteText today token lastWeekFile with
        | some txt => [(path, txt)]
        | none => []
    | none =>
      match newNoteText today token lastWeekFile with
      | some txt => [(path, txt)]
      | none => []

/-- `n` has no nontrivial self-overlap: no proper nonempty suffix of
`n` is a prefix of `n`.  (Both search needles of the extractor,
`## {section}\n` and `\n##`, satisfy this, which pins the regex match
to the first occurrence of the needle.) -/
def selfOverlapFree (n : List Char) : Bool :=
  (List.range n.length).all fun k => k == 0 || !((n.drop k).isPrefixOf n)

/-- Whether `get_year_and_week_from_date` took the
`print`-and-`return 1` branch of lines 71-73. -/
def isParseError1 (r : YW) : Bool :=
  match r with
  | .parseErrorReturn1 _ => true
  | _ => false

/-! ## Helper lemmas about the first-occurrence scan -/

theorem firstIdx_cons (n : List Char) (c : Char) (t : List Char) :
    firstIdx n (c :: t) =
      if n.isPrefixOf (c :: t) then some 0 else (firstIdx n t).map (· + 1) := rfl

theorem pyIn_of_isPrefixOfEq (n h : List Char) (hp : n.isPrefixOf h = true) :
    pyIn n h = true := by
  cases h with
  | nil =>
    cases n with
    | nil => rfl
    | cons a t => simp [List.isPrefixOf] at hp
  | cons c t => simp [pyIn, firstIdx_cons, hp]

theorem pyIn_cons (n : List Char) (c : Char) (t : List Char) (h : pyIn n t = true) :
    pyIn n (c :: t) = true := by
  simp only [pyIn, firstIdx_cons]
  split
  · rfl
  · simpa using h

theorem selfOverlapFree_drop {n : List Char} (h : selfOverlapFree n = true) {k : Nat}
    (hk0 : 0 < k) (hk : k < n.length) : (n.drop k).isPrefixOf n = false := by
  have hh := List.all_eq_true.mp h k (List.mem_range.mpr hk)
  simp only [Bool.or_eq_true, beq_iff_eq, Bool.not_eq_eq_eq_not, Bool.not_true] at hh
  rcases hh with h0 | hfalse
  · omega
  · simpa using hfalse

theorem isPrefixOf_append_self (n R : List Char) : n.isPrefixOf (n ++ R) = true := by
  rw [ List.isPrefixOf_iff_prefix]
  exact List.prefix_append n R

/-- If `n` does not occur in `P` and has no nontrivial self-overlap,
then the first occurrence of `n` in `P ++ n ++ R` is exactly at
offset `P.length`. -/
theorem firstIdx_append (n P R : List Char) (hne : n ≠ []) (hov : selfOverlapFree n = true)
    (hP : pyIn n P = false) : firstIdx n (P ++ (n ++ R)) = some P.length := by
  induction P with
  | nil =>
    cases n with
    | nil => exact absurd rfl hne
    | cons a t =>
      show firstIdx (a :: t) (a :: (t ++ R)) = some 0
      rw [firstIdx_cons]
      have hpre : (a :: t).isPrefixOf ((a :: t) ++ R) = true := isPrefixOf_append_self (a :: t) R
      simp [hpre]
  | cons c P' ih =>
    have hP' : pyIn n P' = false := by
      cases hx : pyIn n P' with
      | false => rfl
      | true =>
        have := pyIn_cons n c P' hx
        rw [hP] at this
        exact absurd this (by decide)
    have hnp : n.isPrefixOf (c :: (P' ++ (n ++ R))) = false := by
      cases hx : n.isPrefixOf (c :: (P' ++ (n ++ R))) with
      | false => rfl
      | true =>
        exfalso
        have hpre : n <+: (c :: P') ++ (n ++ R) := (List.isPrefixOf_iff_prefix).mp hx
        rcases le_or_lt n.length (c :: P').length with hle | hgt
        · have h1 : n = ((c :: P') ++ (n ++ R)).take n.length :=
            List.prefix_iff_eq_take.mp hpre
          rw [List.take_append_of_le_length hle] at h1
          have h2 : n <+: (c :: P') := h1 ▸ List.take_prefix n.length (c :: P')
          have h3 : pyIn n (c :: P') = true :=
            pyIn_of_isPrefixOfEq _ _ ((List.isPrefixOf_iff_prefix).mpr h2)
          rw [hP] at h3
          exact absurd h3 (by decide)
        · have hcp : (c :: P') <+: n :=
            List.prefix_of_prefix_length_le (List.prefix_append _ _) hpre (Nat.le_of_lt hgt)
          obtain ⟨t2, ht2⟩ := hcp
          have hdrop : n.drop (c :: P').length = t2 := by rw [← ht2, List.drop_left]
          have ht2pre : t2 <+: n ++ R := by
            have hx2 := hpre
            nth_rewrite 1 [← ht2] at hx2
            exact (List.prefix_append_right_inj (c :: P')).mp hx2
          have hlen : t2.length ≤ n.length := by
            have := congrArg List.length ht2
            simp [List.length_append] at this
            omega
          have ht2n : t2 <+: n := by
            have h1 : t2 = (n ++ R).take t2.length := List.prefix_iff_eq_take.mp ht2pre
            rw [List.take_append_of_le_length hlen] at h1
            exact h1 ▸ List.take_prefix t2.length n
          have hcontra := selfOverlapFree_drop hov (k := (c :: P').length) (by simp) hgt
          rw [hdrop] at hcontra
          have htrue : t2.isPrefixOf n = true := (List.isPrefixOf_iff_prefix).mpr ht2n
          rw [hcontra] at htrue
          exact absurd htrue (by decide)
    show firstIdx n (c :: (P' ++ (n ++ R))) = some (P'.length + 1)
    rw [firstIdx_cons, if_neg (by simp [hnp]), ih hP']
    rfl

theorem headingOf_ne_nil (sec : List Char) : headingOf sec ≠ [] := by
  simp [headingOf, str]

/-- The extractor on a content of the shape
`P ++ "## {sec}\n" ++ B ++ "\n##" ++ R` with the heading not occurring
in `P` and no `\n##` inside `B`: the first heading occurrence starts
the section and the nearest `\n##` ends it, so the result is the
trimmed `B`. -/
theorem extractSection_append (sec P B R : List Char)
    (hov : selfOverlapFree (headingOf sec) = true)
    (hP : pyIn (headingOf sec) P = false)
    (hB : pyIn (str "\n##") B = false) :
    extractSection sec (P ++ (headingOf sec ++ (B ++ (str "\n##" ++ R)))) = some (pyStrip B) := by
  have h1 : firstIdx (headingOf sec) (P ++ (headingOf sec ++ (B ++ (str "\n##" ++ R)))) =
      some P.length := firstIdx_append _ _ _ (headingOf_ne_nil sec) hov hP
  have hdrop : (P ++ (headingOf sec ++ (B ++ (str "\n##" ++ R)))).drop
      (P.length + (headingOf sec).length) = B ++ (str "\n##" ++ R) := by
    rw [← List.append_assoc]
    exact List.drop_left' (by simp)
  have h2 : firstIdx (str "\n##") (B ++ (str "\n##" ++ R)) = some B.length :=
    firstIdx_append _ _ _ (by decide) (by decide) hB
  simp only [extractSection, h1, hdrop]
  simp only [findBoundary, h2]
  rw [List.take_left' rfl]

/-! ## Small characterizations used by the claim theorems -/

theorem iso_week_to_date_range_fst (y w d : Nat) :
    (iso_week_to_date_range y w d).1 =
      ymd2ord ⟨y, 1, 4⟩ - (isoweekdayOrd (ymd2ord ⟨y, 1, 4⟩) - 1) + 7 * (w - 1) := rfl

theorem iso_week_to_date_range_snd (y w d : Nat) :
    (iso_week_to_date_range y w d).2 = (iso_week_to_date_range y w d).1 + (d - 1) := rfl

/-- Date resolution never leaves an empty unparsed string: an empty
token is caught by the `if not date` entry condition. -/
theorem resolveDate_unparsed_ne_nil (today : Date) (token : Option (List Char))
    (s : List Char) (h : resolveDate today token = .unparsed s) : s ≠ [] := by
  cases token with
  | none => simp [resolveDate] at h
  | some t =>
    simp only [resolveDate] at h
    by_cases h1 : t = [] ∨ t = str "this" ∨ t = str "today"
    · rw [if_pos h1] at h
      simp at h
    · rw [if_neg h1] at h
      by_cases h2 : pyIn t (str "last") = true
      · rw [if_pos h2] at h
        simp at h
      · rw [if_neg h2] at h
        cases hf : tryFormats t with
        | some d => rw [hf] at h; simp at h
        | none =>
          rw [hf] at h
          have : t = s := by injection h
          subst this
          intro hnil
          exact h1 (Or.inl hnil)

/-! ## Claim theorems -/

/-- C1: for a non-empty token matching no format (e.g. `"hello"`), the
code does not report a parse error and exit 1: the unparsed token is a
truthy string, so the `Unable to parse date` / `return 1` branch is
unreachable (second conjunct: it is never taken, for any input), and
`date.year` raises `AttributeError` instead (first conjunct). -/
theorem spec_c1 :
    (∀ today : Date,
      get_year_and_week_from_date today (some (str "hello")) = .attrError (str "hello")) ∧
    (∀ (today : Date) (token : Option (List Char)),
      isParseError1 (get_year_and_week_from_date today token) = false) := by
  constructor
  · intro today
    rfl
  · intro today token
    cases hr : resolveDate today token with
    | date d => simp only [get_year_and_week_from_date, hr]; rfl
    | unparsed s =>
      simp only [get_year_and_week_from_date, hr]
      rw [if_neg (resolveDate_unparsed_ne_nil today token s hr)]
      rfl

/-- C2: for every valid year and week 1..53,
`iso_week_to_date_range(year, week, days=5)` returns the start date
given by rewinding Jan 4 to its Monday and adding `week - 1` weeks;
the start date is a Monday (isoweekday 1) and the end date is a
Friday (isoweekday 5) exactly 4 days later. -/
theorem spec_c2 (y w : Nat) (hy1 : 1 ≤ y) (hy2 : y ≤ 9999) (hw1 : 1 ≤ w) (hw2 : w ≤ 53) :
    (iso_week_to_date_range y w 5).1 =
        ymd2ord ⟨y, 1, 4⟩ - (isoweekdayOrd (ymd2ord ⟨y, 1, 4⟩) - 1) + 7 * (w - 1) ∧
    isoweekdayOrd (iso_week_to_date_range y w 5).1 = 1 ∧
    (iso_week_to_date_range y w 5).2 = (iso_week_to_date_range y w 5).1 + 4 ∧
    isoweekdayOrd (iso_week_to_date_range y w 5).2 = 5 := by
  have hj : 4 ≤ ymd2ord ⟨y, 1, 4⟩ := by
    have : ymd2ord ⟨y, 1, 4⟩ = daysBeforeYear y + daysBeforeMonth y 1 + 4 := rfl
    omega
  refine ⟨iso_week_to_date_range_fst y w 5, ?_, iso_week_to_date_range_snd y w 5, ?_⟩
  · rw [iso_week_to_date_range_fst]
    generalize ymd2ord ⟨y, 1, 4⟩ = j at hj ⊢
    simp only [isoweekdayOrd]
    omega
  · rw [iso_week_to_date_range_snd, iso_week_to_date_range_fst]
    generalize ymd2ord ⟨y, 1, 4⟩ = j at hj ⊢
    simp only [isoweekdayOrd]
    omega

/-- C2 witness: the theorem applied at year 2024, week 1. -/
theorem spec_c2_witness :
    1 ≤ 2024 ∧ (2024 : Nat) ≤ 9999 ∧ 1 ≤ 1 ∧ (1 : Nat) ≤ 53 ∧
    ((iso_week_to_date_range 2024 1 5).1 =
        ymd2ord ⟨2024, 1, 4⟩ - (isoweekdayOrd (ymd2ord ⟨2024, 1, 4⟩) - 1) + 7 * (1 - 1) ∧
      isoweekdayOrd (iso_week_to_date_range 2024 1 5).1 = 1 ∧
      (iso_week_to_date_range 2024 1 5).2 = (iso_week_to_date_range 2024 1 5).1 + 4 ∧
      isoweekdayOrd (iso_week_to_date_range 2024 1 5).2 = 5) :=
  ⟨by decide, by decide, by decide, by decide,
    spec_c2 2024 1 (by decide) (by decide) (by decide) (by decide)⟩

/-- C3 (amended): the round-trip holds provided the text before the
`## TODO` heading does not itself contain the substring `## TODO\n`
(extraction targets the first occurrence) and the body contains no
`\n##`; the terminating boundary is the nearest following `##` line,
and the result is the trimmed body. -/
theorem spec_c3 (P B R : List Char)
    (hP : pyIn (str "## TODO\n") P = false)
    (hB : pyIn (str "\n##") B = false) :
    extractSection (str "TODO") (P ++ (str "## TODO\n" ++ (B ++ (str "\n##" ++ R)))) =
      some (pyStrip B) := by
  have h : headingOf (str "TODO") = str "## TODO\n" := by decide
  have hmain := extractSection_append (str "TODO") P B R (by decide)
    (by rw [h]; exact hP) hB
  rw [h] at hmain
  exact hmain

/-- C3 witness: the theorem applied to Scenario 3's content
`"## TODO\n- buy milk\n\n## Blockers\n- none\n"` (empty prefix, body
`"- buy milk\n"`), yielding `"- buy milk"`. -/
theorem spec_c3_witness :
    pyIn (str "## TODO\n") [] = false ∧
    pyIn (str "\n##") (str "- buy milk\n") = false ∧
    extractSection (str "TODO")
        ([] ++ (str "## TODO\n" ++ (str "- buy milk\n" ++ (str "\n##" ++ str " Blockers\n- none\n")))) =
      some (pyStrip (str "- buy milk\n")) :=
  ⟨by decide, by decide,
    spec_c3 [] (str "- buy milk\n") (str " Blockers\n- none\n") (by decide) (by decide)⟩

/-- C3 counterexample: with a complete `## TODO` section already
present in the preceding text, extraction returns the first section's
body `"X"`, not the later body `"- buy milk"` — so the result does
depend on what precedes the heading. -/
theorem spec_c3_counterexample :
    extractSection (str "TODO")
        (str "## TODO\nX\n## Y\n## TODO\n- buy milk\n\n## Blockers\n- none\n") = some (str "X") ∧
    ¬ extractSection (str "TODO")
        (str "## TODO\nX\n## Y\n## TODO\n- buy milk\n\n## Blockers\n- none\n") =
          some (str "- buy milk") := by
  constructor
  · decide
  · decide

/-- C4 (amended): extraction succeeds exactly when the substring
`## {section}` immediately followed by a newline occurs anywhere in
the content — the match is not anchored to line starts, so lines such
as `x## TODO` (or `### TODO`) do begin a section. -/
theorem spec_c4 :
    (∀ sec content : List Char,
      (extractSection sec content).isSome = pyIn (headingOf sec) content) ∧
    extractSection (str "TODO") (str "x## TODO\n- a\n## B\n") = some (str "- a") := by
  constructor
  · intro sec content
    unfold extractSection pyIn
    cases h : firstIdx (headingOf sec) content <;> simp [h]
  · decide

/-- C4 counterexample: a `### TODO` line, which merely contains
`## TODO` with an extra leading character, does begin the section:
extraction returns `"body"` instead of failing. -/
theorem spec_c4_counterexample :
    extractSection (str "TODO") (str "### TODO\nbody\n## X\n") = some (str "body") ∧
    extractSection (str "TODO") (str "### TODO\nbody\n## X\n") ≠ none := by
  constructor
  · decide
  · decide

/-- C5 (amended): a missing or empty note file raises the
`No notes found ...` `FileNotFoundError`; but when the file exists and
is non-empty and the heading is simply absent, `cat_section` returns
Python `None` (not a NotFound signal).  A not-found section is never
reported as an empty string. -/
theorem spec_c5 :
    (∀ (sec : List Char) (tok : Option (List Char)),
      cat_section sec tok none = .errNotFound (notFoundMsg tok)) ∧
    (∀ (sec : List Char) (tok : Option (List Char)),
      cat_section sec tok (some []) = .errNotFound (notFoundMsg tok)) ∧
    (∀ (sec : List Char) (tok : Option (List Char)) (content : List Char),
      content ≠ [] → extractSection sec content = none →
      cat_section sec tok (some content) = .retNone) := by
  refine ⟨fun sec tok => rfl, fun sec tok => rfl, fun sec tok content hc he => ?_⟩
  simp only [cat_section]
  rw [if_pos (List.length_pos.mpr hc), he]

/-- C5 witness: the theorem applied to a missing file, an empty file,
and an existing file without the requested heading. -/
theorem spec_c5_witness :
    cat_section (str "TODO") (some (str "last")) none =
      .errNotFound (notFoundMsg (some (str "last"))) ∧
    cat_section (str "TODO") none (some []) = .errNotFound (notFoundMsg none) ∧
    cat_section (str "TODO") none (some (str "## Done\nz\n")) = .retNone :=
  ⟨spec_c5.1 (str "TODO") (some (str "last")),
    spec_c5.2.1 (str "TODO") none,
    spec_c5.2.2 (str "TODO") none (str "## Done\nz\n") (by decide) (by decide)⟩

/-- C5 counterexample: querying `TODO` against an existing non-empty
file without that heading returns Python `None` — the CLI prints the
string `"None"`, not a `No notes found ...` message. -/
theorem spec_c5_counterexample :
    cat_section (str "TODO") none (some (str "## Done\nx\n")) = .retNone ∧
    cliSectionOutput (cat_section (str "TODO") none (some (str "## Done\nx\n"))) = str "None" := by
  constructor
  · decide
  · decide

/-- C6: the year component returned by the resolver is the calendar
year of the resolved date for every date (first conjunct); at the
boundary date 2019-12-30, whose ISO week-year is 2020, the code still
reports (2019, 1) — the behavior is preserved, not corrected to
ISO-8601. -/
theorem spec_c6 :
    (∀ d : Date, (year_week_of_date d).1 = d.year) ∧
    isocalendar ⟨2019, 12, 30⟩ = (2020, 1, 1) ∧
    year_week_of_date ⟨2019, 12, 30⟩ = (2019, 1) :=
  ⟨fun _ => rfl, by decide, by decide⟩

/-- C7: the token `"2024-01-01"` resolves to year 2024, ISO week 1,
and the derived path is `<base_dir>/2024/01-01.md` (Monday of the
work-week formatted as MM-DD), for any current date and base
directory. -/
theorem spec_c7 (today : Date) :
    get_year_and_week_from_date today (some (str "2024-01-01")) = .ok 2024 1 ∧
    (∀ bd : List Char,
      build_filename today (some (str "2024-01-01")) bd =
        some (bd ++ str "/" ++ str "2024" ++ str "/" ++ str "01-01" ++ str ".md")) ∧
    build_filename today (some (str "2024-01-01")) (str "/home/user/.notes") =
      some (str "/home/user/.notes/2024/01-01.md") :=
  ⟨rfl, fun _ => rfl, rfl⟩

/-- C8: the rendered template places the carried-forward TODO text
(a function of the TODO query result alone) and Blockers text (of the
Blockers result alone) in their own slots (first conjunct); a new
note seeded from a last-week file whose TODO section contained
`- finish report` has exactly that TODO body; a file missing either
section leaves that section empty without affecting the other, and a
missing file leaves both empty. -/
theorem spec_c8 :
    (∀ (y w : Nat) (ws we : List Char) (lt lb : CatResult),
      NOTE_TEMPLATE_render y w ws we (carryTodo lt) (carryBlockers lb) =
        templateHead y w ws we ++
          (carryTodo lt ++ (str "\n\n## Blockers\n\n" ++ (carryBlockers lb ++ str "\n\n")))) ∧
    newNoteSection (str "TODO") ⟨2024, 1, 10⟩ none
        (some (str "## TODO\n\n- finish report\n\n## Blockers\n\n- none\n")) =
      some (str "- finish report") ∧
    newNoteSection (str "TODO") ⟨2024, 1, 10⟩ none (some (str "## TODO\n\n- a\n")) =
      some (str "- a") ∧
    newNoteSection (str "Blockers") ⟨2024, 1, 10⟩ none (some (str "## TODO\n\n- a\n")) =
      some [] ∧
    newNoteSection (str "TODO") ⟨2024, 1, 10⟩ none (some (str "## Blockers\n\n- b\n")) =
      some [] ∧
    newNoteSection (str "Blockers") ⟨2024, 1, 10⟩ none (some (str "## Blockers\n\n- b\n")) =
      some (str "- b") ∧
    newNoteSection (str "TODO") ⟨2024, 1, 10⟩ none none = some [] ∧
    newNoteSection (str "Blockers") ⟨2024, 1, 10⟩ none none = some [] := by
  refine ⟨?_, by decide, by decide, by decide, by decide, by decide, by decide, by decide⟩
  intro y w ws we lt lb
  simp [NOTE_TEMPLATE_render, templateHead, List.append_assoc]

/-- C9: the no-flag branch never writes when the target file exists
with non-empty content (it is only opened in the editor), and every
write it ever performs targets the resolved path with the template
text, only when the target is absent or empty — in particular the
carry-forward reads of last week's file produce no write to it. -/
theorem spec_c9 (today : Date) (token : Option (List Char)) (bd : List Char)
    (targetContent lastFile : Option (List Char)) :
    (∀ c, targetContent = some c → 0 < c.length →
      mainNoFlagWrites today token bd targetContent lastFile = []) ∧
    (∀ p t, (p, t) ∈ mainNoFlagWrites today token bd targetContent lastFile →
      build_filename today token bd = some p ∧
        (targetContent = none ∨ targetContent = some [])) := by
  constructor
  · rintro c rfl hlen
    simp only [mainNoFlagWrites]
    cases hb : build_filename today token bd with
    | none => rfl
    | some path => simp [hlen]
  · intro p t hmem
    cases hb : build_filename today token bd with
    | none => simp [mainNoFlagWrites, hb] at hmem
    | some path =>
      cases targetContent with
      | none =>
        cases hn : newNoteText today token lastFile with
        | none => simp [mainNoFlagWrites, hb, hn] at hmem
        | some txt =>
          simp [mainNoFlagWrites, hb, hn] at hmem
          exact ⟨by simp [hb, hmem.1], Or.inl rfl⟩
      | some c =>
        by_cases hlen : 0 < c.length
        · simp [mainNoFlagWrites, hb, hlen] at hmem
        · have hc : c = [] := by
            cases c with
            | nil => rfl
            | cons a t2 => simp at hlen
          subst hc
          cases hn : newNoteText today token lastFile with
          | none => simp [mainNoFlagWrites, hb, hn] at hmem
          | some txt =>
            simp [mainNoFlagWrites, hb, hn] at hmem
            exact ⟨by simp [hb, hmem.1], Or.inr rfl⟩

/-- C9 witness: the theorem applied to an existing non-empty target
file (no write happens). -/
theorem spec_c9_witness :
    mainNoFlagWrites ⟨2024, 1, 10⟩ none (str "/b") (some (str "x")) none = [] :=
  (spec_c9 ⟨2024, 1, 10⟩ none (str "/b") (some (str "x")) none).1 (str "x") rfl (by decide)

/-- C10: any non-empty token that is a contiguous substring of
`"last"` other than `"last"` itself (e.g. `"as"`) passes the
`date in ("last")` substring test, so resolution skips format parsing,
does not fail, and yields the current date minus 7 days. -/
theorem spec_c10 (today : Date) (t : List Char)
    (h0 : t ≠ []) (h1 : t ≠ str "last") (h2 : pyIn t (str "last") = true) :
    resolveDate today (some t) = .date (ord2ymd (ymd2ord today - 7)) ∧
    get_year_and_week_from_date today (some t) =
      .ok (ord2ymd (ymd2ord today - 7)).year ((isocalendar (ord2ymd (ymd2ord today - 7))).2.1) := by
  have hr : resolveDate today (some t) = .date (ord2ymd (ymd2ord today - 7)) := by
    simp only [resolveDate]
    rw [if_neg, if_pos h2]
    rintro (h | h | h)
    · exact h0 h
    · rw [h] at h2
      exact absurd h2 (by decide)
    · rw [h] at h2
      exact absurd h2 (by decide)
  refine ⟨hr, ?_⟩
  simp only [get_year_and_week_from_date, hr]
  rfl

/-- C10 witness: the theorem applied to the token `"as"` on
2024-05-15. -/
theorem spec_c10_witness :
    (str "as" ≠ ([] : List Char)) ∧ str "as" ≠ str "last" ∧
    pyIn (str "as") (str "last") = true ∧
    (resolveDate ⟨2024, 5, 15⟩ (some (str "as")) =
        .date (ord2ymd (ymd2ord ⟨2024, 5, 15⟩ - 7)) ∧
      get_year_and_week_from_date ⟨2024, 5, 15⟩ (some (str "as")) =
        .ok (ord2ymd (ymd2ord ⟨2024, 5, 15⟩ - 7)).year
          ((isocalendar (ord2ymd (ymd2ord ⟨2024, 5, 15⟩ - 7))).2.1)) :=
  ⟨by decide, by decide, by decide,
    spec_c10 ⟨2024, 5, 15⟩ (str "as") (by decide) (by decide) (by decide)⟩
